import Mathlib

/-!
Verification of the authentication/session core of the nextjs-fastapi
monorepo template.  The front-end Session Client (Next.js server actions,
API route handlers, and the client auth providers) is embedded from the
TypeScript sources under `apps/web`.  The FastAPI backend (Token Codec,
Revocation Store, Auth Service) ships no source here, only its test
documentation, so those components are modelled from the specification.
-/

/-! ## Token Codec and Revocation Store (backend) -/

/-- An injective numeric encoding of a string (base = number of Unicode
scalar values, digits shifted by one so the empty string is distinct). -/
def strEncode (s : String) : Nat :=
  s.toList.foldl (fun a c => a * 1114112 + (c.toNat + 1)) 0

/-- Modelled from the spec: the FastAPI security module (Token Codec) is not
under src/.  Per section 4.1 the codec signs the payload with a process-wide
secret key using a deterministic HMAC-style scheme; we model the signature as
an injective function of the key and the payload fields. -/
def sign (key : Nat) (subject : String) (issuedAt expiry : Nat) : Nat :=
  Nat.pair key (Nat.pair (strEncode subject) (Nat.pair issuedAt expiry))

/-- Modelled from the spec: a parsed token embedding subject, issued-at,
absolute expiry and the signature (section 3, "Token"). -/
structure Token where
  subject : String
  issuedAt : Nat
  expiry : Nat
  sig : Nat
deriving DecidableEq

/-- Token Codec failure taxonomy (section 4.1).  `Malformed` covers token
strings that do not parse; the embedding works on parsed tokens, so it is
never produced here. -/
inductive VerifyError
  | InvalidSignature
  | Expired
  | Malformed
deriving DecidableEq

/-- Modelled from the spec: `issue(subject, ttl)` builds a token embedding
the subject and absolute expiry = now + ttl, signed with the key. -/
def issue (key now : Nat) (subject : String) (ttl : Nat) : Token :=
  { subject := subject
    issuedAt := now
    expiry := now + ttl
    sig := sign key subject now (now + ttl) }

/-- Modelled from the spec: `verify(token)` checks signature validity and
expiry (`Expired` if now > embedded expiry); it does not consult the
Revocation Store. -/
def verify (key now : Nat) (t : Token) : Except VerifyError String :=
  if t.sig = sign key t.subject t.issuedAt t.expiry then
    if t.expiry < now then .error .Expired else .ok t.subject
  else .error .InvalidSignature

/-- Modelled from the spec: the token identifier used by the Revocation
Store ("the token identifier (or the full token string)"); we use an
injective encoding of the full token. -/
def tokenId (t : Token) : Nat :=
  Nat.pair (strEncode t.subject) (Nat.pair t.issuedAt (Nat.pair t.expiry t.sig))

/-- Modelled from the spec: the Revocation Store is a process-wide mapping
from token identifier to the token's original expiry (section 4.2). -/
abbrev RevocationStore := List (Nat × Nat)

/-- Modelled from the spec: `revoke(tokenId, expiry)` inserts the id with its
natural expiry; revoking an already-revoked token is a no-op success. -/
def revoke (store : RevocationStore) (tid expiry : Nat) : RevocationStore :=
  if store.any (fun e => e.1 == tid) then store else (tid, expiry) :: store

/-- Modelled from the spec: `isRevoked(tokenId)` is a membership check. -/
def isRevoked (store : RevocationStore) (tid : Nat) : Bool :=
  store.any (fun e => e.1 == tid)

/-- Modelled from the spec: `cleanup(now)` removes every entry whose recorded
expiry is at most `now`. -/
def cleanup (store : RevocationStore) (now : Nat) : RevocationStore :=
  store.filter (fun e => now < e.2)

/-- Auth Service failure surfaced to the HTTP boundary (section 4.3). -/
inductive AuthError
  | Unauthenticated
deriving DecidableEq

/-- Modelled from the spec: `authenticate(token)` verifies via the Codec,
then checks `isRevoked`; if either fails it surfaces `Unauthenticated`
(section 4.3). -/
def authenticate (key : Nat) (store : RevocationStore) (now : Nat)
    (t : Token) : Except AuthError String :=
  match verify key now t with
  | .error _ => .error .Unauthenticated
  | .ok s => if isRevoked store (tokenId t) then .error .Unauthenticated else .ok s

/-- After `revoke`, the token id is a member of the store. -/
lemma isRevoked_revoke (store : RevocationStore) (tid e : Nat) :
    isRevoked (revoke store tid e) tid = true := by
  by_cases h : store.any (fun x => x.1 == tid)
  · simp [revoke, isRevoked, h]
  · simp [revoke, isRevoked, h]

/-- `authenticate` always fails with `Unauthenticated` once the token's id
has been revoked, whatever the verification outcome. -/
lemma authenticate_after_revoke (key now : Nat) (t : Token)
    (store : RevocationStore) :
    authenticate key (revoke store (tokenId t) t.expiry) now t
      = .error .Unauthenticated := by
  unfold authenticate
  cases hv : verify key now t with
  | error e => rfl
  | ok s => simp [isRevoked_revoke]

/-- `verify` on a freshly issued token succeeds with the issued subject. -/
lemma verify_issue (key now : Nat) (subject : String) (ttl : Nat) :
    verify key now (issue key now subject ttl) = .ok subject := by
  have h : ¬ (now + ttl < now) := Nat.not_lt.mpr (Nat.le_add_right now ttl)
  simp [verify, issue, h]

/-- C8: for every subject and ttl, Token Codec `verify` applied immediately
after `issue(subject, ttl)` under the same process-wide signing key succeeds
and returns the same subject. -/
theorem verify_after_issue (key now : Nat) (subject : String) (ttl : Nat) :
    verify key now (issue key now subject ttl) = .ok subject := by
  have h : ¬ (now + ttl < now) := Nat.not_lt.mpr (Nat.le_add_right now ttl)
  simp [verify, issue, h]

/-- C9: for every token, `revoke` on that token's identifier followed by
`authenticate` on the same token fails with `Unauthenticated`, even though
`verify` alone (ignoring revocation) still succeeds on a token issued now
and not yet expired. -/
theorem revoke_then_authenticate (key now : Nat) (t : Token)
    (store : RevocationStore) :
    authenticate key (revoke store (tokenId t) t.expiry) now t
        = .error .Unauthenticated ∧
      ∀ subject ttl, verify key now (issue key now subject ttl) = .ok subject := by
  exact ⟨authenticate_after_revoke key now t store,
    fun subject ttl => verify_issue key now subject ttl⟩

/-! ## Session Client: server actions (apps/web actions/auth.ts, part_008) -/

/-- Server-action response state (`AuthState` in actions/auth.ts). -/
structure AuthState where
  error : Option String
  success : Bool
deriving DecidableEq

/-- Simplified executable model of zod's `z.string().email()` check: exactly
one at-sign separating a nonempty local part from a domain that contains a
dot neither at its start nor at its end.  The claims settled below depend
only on whether validation as a whole passed, not on the exact email
grammar. -/
def emailValid (s : String) : Bool :=
  let cs := s.toList
  let lp := cs.takeWhile (fun c => c != '@')
  match cs.dropWhile (fun c => c != '@') with
  | [] => false
  | _ :: dom =>
      decide (0 < lp.length) && decide (0 < dom.length) &&
        dom.all (fun c => c != '@') && dom.contains '.' &&
        dom.head? != some '.' && dom.getLast? != some '.'

/-- The inline `loginSchema` of actions/auth.ts: a valid email and a password
of at least 6 characters. -/
def loginFormValid (email password : String) : Bool :=
  emailValid email && decide (6 ≤ password.length)

/-- Cookie attributes passed to `cookieStore.set`. -/
structure CookieAttrs where
  httpOnly : Bool
  secure : Bool
  sameSite : String
  maxAge : Nat
  path : String
deriving DecidableEq

/-- A single `cookieStore.set(name, value, attrs)` effect. -/
structure SetCookie where
  name : String
  value : String
  attrs : CookieAttrs
deriving DecidableEq

/-- Outcome of the `loginAccessToken` API call as observed by the action:
the call threw, returned a response without data, or returned a response
whose data carries `access_token`. -/
inductive LoginApiOutcome
  | threw (message : String)
  | respNoData
  | respToken (access_token : String)
deriving DecidableEq

/-- `true` exactly on the outcome where the API returned a token. -/
def LoginApiOutcome.isToken : LoginApiOutcome → Bool
  | .respToken _ => true
  | _ => false

/-- Result of the `login` server action: the returned `AuthState` plus the
cookie write it performed, if any. -/
structure LoginResult where
  state : AuthState
  cookieWrite : Option SetCookie
deriving DecidableEq

namespace Actions

/-- The `login` server action (actions/auth.ts lines 30-93): validate the
form with the inline zod schema, call `loginAccessToken`, and on a response
carrying a token set the `auth-token` cookie with httpOnly, secure only in
production, sameSite lax, maxAge one week, path "/".  Validation failure,
a thrown API error, and a response with no data all return an error state
without touching the cookie store. -/
def login (production : Bool) (email password : String)
    (api : LoginApiOutcome) : LoginResult :=
  if loginFormValid email password then
    match api with
    | .threw m =>
        { state := { error := some ("登录失败: " ++ m), success := false }
          cookieWrite := none }
    | .respNoData =>
        { state := { error := some "登录失败，服务器没有返回Token", success := false }
          cookieWrite := none }
    | .respToken t =>
        { state := { error := none, success := true }
          cookieWrite := some
            { name := "auth-token"
              value := t
              attrs :=
                { httpOnly := true
                  secure := production
                  sameSite := "lax"
                  maxAge := 60 * 60 * 24 * 7
                  path := "/" } } }
  else
    { state := { error := some "表单验证失败", success := false }
      cookieWrite := none }

end Actions

/-- C6: for every successful login (form valid, API returned a token), the
Session Client stores the token in the `auth-token` cookie with exactly
HttpOnly set, Secure only in production, SameSite lax, path "/", and a
max-age of 60*60*24*7 = 604800 seconds (7 days). -/
theorem login_cookie_attributes (production : Bool) (email password t : String)
    (h : loginFormValid email password = true) :
    (Actions.login production email password (.respToken t)).cookieWrite
        = some
          { name := "auth-token", value := t
            attrs :=
              { httpOnly := true, secure := production, sameSite := "lax"
                maxAge := 60 * 60 * 24 * 7, path := "/" } } ∧
      60 * 60 * 24 * 7 = 604800 ∧
      (Actions.login production email password (.respToken t)).state.success
        = true := by
  refine ⟨?_, rfl, ?_⟩ <;> simp [Actions.login, h]

/-- Witness for `login_cookie_attributes` at a concrete valid form. -/
theorem login_cookie_attributes_witness :
    (Actions.login false "a@b.co" "secret1" (.respToken "tok")).cookieWrite
        = some
          { name := "auth-token", value := "tok"
            attrs :=
              { httpOnly := true, secure := false, sameSite := "lax"
                maxAge := 60 * 60 * 24 * 7, path := "/" } } :=
  (login_cookie_attributes false "a@b.co" "secret1" "tok" (by decide)).1

/-- C10: the login action writes the cookie only on the single path where
validation passed and the API returned a token; on every failing path
(validation failure, thrown API call, response with no token) the cookie
store is untouched, and the state succeeds exactly on the cookie-writing
path. -/
theorem login_failure_no_cookie (production : Bool) (email password : String)
    (api : LoginApiOutcome) :
    (Actions.login production email password api).cookieWrite.isSome
        = (loginFormValid email password && api.isToken) ∧
      (Actions.login production email password api).state.success
        = (loginFormValid email password && api.isToken) := by
  cases hv : loginFormValid email password <;> cases api <;>
    simp [Actions.login, hv, LoginApiOutcome.isToken]

/-! ## Register action and schemas (actions/auth.ts, schemas/auth.ts) -/

/-- The username character class of `registerSchema` in schemas/auth.ts:
ASCII letters, digits and underscore. -/
def usernameCharsOk (s : String) : Bool :=
  s.toList.all (fun c => c.isAlphanum || c == '_')

/-- First issue reported by the inline `registerSchema` of actions/auth.ts
(username at least 3 chars, valid email, password at least 6 chars, then the
object-level refinement that password equals confirmPassword).  zod reports
field issues in shape order and runs the refinement only when the base
object parses, and the action reads `issues[0]`. -/
def registerIssue (username email password confirmPassword : String) :
    Option String :=
  if ¬ (3 ≤ username.length) then some "用户名长度至少为3个字符"
  else if ¬ (emailValid email = true) then some "请输入有效的邮箱地址"
  else if ¬ (6 ≤ password.length) then some "密码长度至少为6个字符"
  else if password = confirmPassword then none
  else some "两次输入的密码不一致"

/-- First issue reported by the richer `registerSchema` of schemas/auth.ts
(username 3-50 chars restricted to letters, digits, underscore; valid email;
password 6-100 chars; nonempty confirmation; then the same password-equality
refinement). -/
def registerSchemaIssue (username email password confirmPassword : String) :
    Option String :=
  if ¬ (3 ≤ username.length) then some "用户名长度至少为3个字符"
  else if ¬ (username.length ≤ 50) then some "用户名长度不能超过50个字符"
  else if ¬ (usernameCharsOk username = true) then some "用户名只能包含字母、数字和下划线"
  else if ¬ (emailValid email = true) then some "请输入有效的邮箱地址"
  else if ¬ (6 ≤ password.length) then some "密码长度至少为6个字符"
  else if ¬ (password.length ≤ 100) then some "密码长度不能超过100个字符"
  else if ¬ (1 ≤ confirmPassword.length) then some "请确认密码"
  else if password = confirmPassword then none
  else some "两次输入的密码不一致"

/-- Outcome of the `registerUser` API call. -/
inductive RegisterApiOutcome
  | ok
  | threw (message : String)
deriving DecidableEq

/-- Result of the `register` server action: the returned state plus whether
the registration API call was issued. -/
structure RegisterResult where
  state : AuthState
  apiCalled : Bool
deriving DecidableEq

namespace Actions

/-- The `register` server action (actions/auth.ts lines 95-162): validate
with the inline zod schema; on failure return `issues[0]` as the error and
skip the API; on success call `registerUser`, mapping a thrown error to an
error state. -/
def register (username email password confirmPassword : String)
    (api : RegisterApiOutcome) : RegisterResult :=
  match registerIssue username email password confirmPassword with
  | some msg => { state := { error := some msg, success := false }, apiCalled := false }
  | none =>
      match api with
      | .ok => { state := { error := none, success := true }, apiCalled := true }
      | .threw m =>
          { state := { error := some ("注册失败: " ++ m), success := false }
            apiCalled := true }

end Actions

/-- With mismatched passwords the inline schema never parses. -/
lemma registerIssue_ne_none (u e p c : String) (h : p ≠ c) :
    registerIssue u e p c ≠ none := by
  unfold registerIssue
  split_ifs <;> simp_all

/-- With mismatched passwords the schemas/auth.ts schema never parses. -/
lemma registerSchemaIssue_ne_none (u e p c : String) (h : p ≠ c) :
    registerSchemaIssue u e p c ≠ none := by
  unfold registerSchemaIssue
  split_ifs <;> simp_all

/-- C7: for every registration submission in which the password and its
confirmation differ, the register operation fails with a validation error
(the password-mismatch message whenever the other fields are valid), no
registration request is sent to the backend API, and the schemas/auth.ts
`registerSchema` rejects the same data. -/
theorem register_password_mismatch (u e p c : String)
    (api : RegisterApiOutcome) (h : p ≠ c) :
    (Actions.register u e p c api).state.success = false ∧
      (Actions.register u e p c api).apiCalled = false ∧
      (3 ≤ u.length → emailValid e = true → 6 ≤ p.length →
        (Actions.register u e p c api).state.error = some "两次输入的密码不一致") ∧
      registerSchemaIssue u e p c ≠ none := by
  refine ⟨?_, ?_, ?_, registerSchemaIssue_ne_none u e p c h⟩
  · unfold Actions.register
    cases hi : registerIssue u e p c with
    | some msg => rfl
    | none => exact absurd hi (registerIssue_ne_none u e p c h)
  · unfold Actions.register
    cases hi : registerIssue u e p c with
    | some msg => rfl
    | none => exact absurd hi (registerIssue_ne_none u e p c h)
  · intro hu he hp
    have hi : registerIssue u e p c = some "两次输入的密码不一致" := by
      unfold registerIssue
      simp [hu, he, hp, h]
    unfold Actions.register
    rw [hi]

/-- Witness for `register_password_mismatch` at a concrete submission with
valid fields and differing passwords. -/
theorem register_password_mismatch_witness :
    (Actions.register "alice" "a@b.co" "secret1" "secret2" .ok).apiCalled
        = false ∧
      (Actions.register "alice" "a@b.co" "secret1" "secret2" .ok).state.error
        = some "两次输入的密码不一致" := by
  have h := register_password_mismatch "alice" "a@b.co" "secret1" "secret2"
    .ok (by decide)
  exact ⟨h.2.1, h.2.2.1 (by decide) (by decide) (by decide)⟩

/-! ## Logout server action and API route handlers -/

/-- Outcome of the backend `apiLogout` call: it returned, or it threw
(network error or non-2xx turned into an exception by the SDK). -/
inductive ApiCallOutcome
  | ok
  | errorThrown
deriving DecidableEq

/-- `true` exactly when the call threw. -/
def ApiCallOutcome.isThrown : ApiCallOutcome → Bool
  | .errorThrown => true
  | .ok => false

/-- Observable effects of the `logout` server action. -/
structure ServerLogoutResult where
  apiCalled : Bool
  apiFailed : Bool
  cookieAfter : Option String
  redirectedTo : Option String
deriving DecidableEq

namespace Actions

/-- The `logout` server action (actions/auth.ts lines 164-189): inside
`try`, read the `auth-token` cookie and call `apiLogout` only when a token
is present; `catch` swallows any thrown error; `finally` always deletes the
cookie and redirects to "/login". -/
def logout (cookie : Option String) (api : ApiCallOutcome) : ServerLogoutResult :=
  let called := cookie.isSome
  { apiCalled := called
    apiFailed := called && api.isThrown
    cookieAfter := none
    redirectedTo := some "/login" }

/-- `checkAuthStatus` (actions/auth.ts lines 191-200): returns whether the
`auth-token` cookie is present (`!!token`); it performs no server-side
verification of the token. -/
def checkAuthStatus (cookie : Option String) : Bool :=
  cookie.isSome

end Actions

/-- Result of the POST /api/auth/logout route handler. -/
structure LogoutRouteResult where
  apiCalled : Bool
  apiFailed : Bool
  cookieAfter : Option String
  status : Nat
  success : Bool
deriving DecidableEq

namespace LogoutRoute

/-- The POST /api/auth/logout handler (app/api/auth/logout/route.ts lines
9-48): read the `auth-token` cookie; when a token is present call
`apiLogout` inside its own try/catch that swallows the failure; always
delete the cookie and answer 200 with success true.  The outer catch (500)
only guards the runtime's cookie-store access, which is outside this
embedding. -/
def POST (cookie : Option String) (api : ApiCallOutcome) : LogoutRouteResult :=
  let called := cookie.isSome
  { apiCalled := called
    apiFailed := called && api.isThrown
    cookieAfter := none
    status := 200
    success := true }

end LogoutRoute

/-- JSON body and status of the GET /auth/status route. -/
structure StatusRouteResult where
  authenticated : Bool
  status : Nat
deriving DecidableEq

namespace StatusRoute

/-- The GET /api/auth/status handler (app/api/auth/status/route.ts lines
8-26): answer 200 with `authenticated = !!token`, i.e. whether the
`auth-token` cookie is present; no backend call is made. -/
def GET (cookie : Option String) : StatusRouteResult :=
  { authenticated := cookie.isSome, status := 200 }

end StatusRoute

/-- C5: the logout route is idempotent from the caller's perspective — for
every cookie state and API outcome (including a thrown call on an
already-revoked or expired token) it answers 200 with success, a call with
no `auth-token` cookie present skips the backend call and still succeeds,
and a second logout after the first (which cleared the cookie) also
succeeds without calling the backend. -/
theorem logout_route_idempotent (cookie : Option String)
    (api₁ api₂ : ApiCallOutcome) :
    (LogoutRoute.POST cookie api₁).success = true ∧
      (LogoutRoute.POST cookie api₁).status = 200 ∧
      (LogoutRoute.POST none api₁).apiCalled = false ∧
      (LogoutRoute.POST (LogoutRoute.POST cookie api₁).cookieAfter api₂).success
        = true ∧
      (LogoutRoute.POST (LogoutRoute.POST cookie api₁).cookieAfter api₂).status
        = 200 ∧
      (LogoutRoute.POST (LogoutRoute.POST cookie api₁).cookieAfter api₂).apiCalled
        = false :=
  ⟨rfl, rfl, rfl, rfl, rfl, rfl⟩

/-! ## Client-side logout (contexts/auth.context.tsx) -/

/-- Outcome of `fetch("/api/auth/logout")` as seen by the client: the
request failed at the network layer, the route answered non-OK, or it
answered OK. -/
inductive FetchOutcome
  | networkError
  | respError
  | respOk
deriving DecidableEq

/-- Observable end state of the client logout sequence. -/
structure ClientLogoutResult where
  finalAuth : Bool
  navigatedTo : Option String
  cookieDeleted : Bool
deriving DecidableEq

namespace AuthContext

/-- The `logout` callback of contexts/auth.context.tsx (lines 146-176):
optimistically set the flag to false, POST to /api/auth/logout; on
`response.ok` call `setAuth(false)` and push "/login" (the route deleted the
cookie); on a non-OK response or a thrown fetch, call `setAuth(true)` —
restoring the Authenticated flag — and do not navigate.  On a network error
the route never ran, so the cookie is untouched; the only non-OK path of the
route is its outer catch, which fires before the cookie deletion. -/
def logout (fetchResult : FetchOutcome) : ClientLogoutResult :=
  match fetchResult with
  | .respOk => { finalAuth := false, navigatedTo := some "/login", cookieDeleted := true }
  | .respError => { finalAuth := true, navigatedTo := none, cookieDeleted := false }
  | .networkError => { finalAuth := true, navigatedTo := none, cookieDeleted := false }

end AuthContext

/-- Claim C1 counterexample: when the logout fetch fails at the network
layer, the client logout of contexts/auth.context.tsx ends with the
authentication flag restored to Authenticated, no navigation, and the
cookie still present — not, as claimed, cookie deleted, Unauthenticated
and navigation to the login entry point. -/
theorem logout_sequence_cex :
    ¬ ((AuthContext.logout .networkError).finalAuth = false ∧
        (AuthContext.logout .networkError).cookieDeleted = true ∧
        (AuthContext.logout .networkError).navigatedTo = some "/login") := by
  decide

/-- C1 (amended): the server-action logout always ends with the cookie
deleted and a redirect to "/login", whatever the API outcome; the
fetch-based client logout completes the claimed sequence (flag false,
navigation to "/login", cookie deleted) only when the logout route answers
OK — on a network error or a non-OK response it restores the flag to
Authenticated and does not navigate, and on a network error the cookie is
not deleted. -/
theorem logout_sequence_amended (cookie : Option String) (api : ApiCallOutcome) :
    (Actions.logout cookie api).cookieAfter = none ∧
      (Actions.logout cookie api).redirectedTo = some "/login" ∧
      (Actions.logout cookie api).apiCalled = cookie.isSome ∧
      AuthContext.logout .respOk
        = { finalAuth := false, navigatedTo := some "/login", cookieDeleted := true } ∧
      AuthContext.logout .networkError
        = { finalAuth := true, navigatedTo := none, cookieDeleted := false } ∧
      (AuthContext.logout .respError).finalAuth = true :=
  ⟨rfl, rfl, rfl, rfl, rfl, rfl⟩

/-! ## Claim C2: status flag versus server-side token validity -/

/-- Serialization of a token into the cookie value string (the cookie holds
the opaque token string; only its presence is ever inspected client-side). -/
def tokenCookieValue (t : Token) : String :=
  toString (tokenId t)

/-- Claim C2 counterexample: a concrete token is issued, then revoked
server-side, yet with that token still sitting in the `auth-token` cookie
both GET /api/auth/status and `checkAuthStatus` report authenticated = true
while `authenticate` on the same token fails — the status boolean tracks
cookie presence, not server-side validity. -/
theorem status_validity_cex :
    (StatusRoute.GET (some (tokenCookieValue (issue 7 0 "alice" 3600)))).authenticated
        = true ∧
      Actions.checkAuthStatus (some (tokenCookieValue (issue 7 0 "alice" 3600)))
        = true ∧
      authenticate 7
          (revoke [] (tokenId (issue 7 0 "alice" 3600)) (issue 7 0 "alice" 3600).expiry)
          0 (issue 7 0 "alice" 3600)
        = .error .Unauthenticated := by
  refine ⟨rfl, rfl, ?_⟩
  exact authenticate_after_revoke 7 0 (issue 7 0 "alice" 3600) []

/-- C2 (amended): the authentication boolean produced by the status
operation reflects only the presence of the `auth-token` cookie — GET
/api/auth/status answers 200 with authenticated equal to cookie presence and
`checkAuthStatus` returns the same — so a revoked, expired or unverifiable
token still present in the cookie yields authenticated = true until the
cookie itself is removed. -/
theorem status_reflects_cookie_presence (cookie : Option String) :
    (StatusRoute.GET cookie).authenticated = cookie.isSome ∧
      (StatusRoute.GET cookie).status = 200 ∧
      Actions.checkAuthStatus cookie = cookie.isSome :=
  ⟨rfl, rfl, rfl⟩

/-! ## Claim C3: route guarding allow-list -/

/-- A navigation effect of the guard: nothing, or `router.push`. -/
inductive NavEffect
  | none
  | push (route : String)
deriving DecidableEq

namespace AuthContext

/-- The allow-list of contexts/auth.context.tsx (and the polling provider of
components/auth-provider.tsx): routes reachable while unauthenticated. -/
def publicRoutes : List String := ["/login", "/register", "/"]

/-- `isPublicRoute` as computed at contexts/auth.context.tsx lines 129-132:
the pathname equals an allow-listed route or extends it with "/". -/
def isPublicRoute (pathname : String) : Bool :=
  publicRoutes.any (fun route => pathname == route
    || pathname.startsWith (route ++ "/"))

/-- The guard effect of contexts/auth.context.tsx lines 128-137: when the
flag is Unauthenticated on a non-public pathname, push "/login". -/
def protectedRouteGuard (isAuthenticated : Bool) (pathname : String) : NavEffect :=
  if !isAuthenticated && !(isPublicRoute pathname) then .push "/login" else .none

end AuthContext

namespace AuthProviderV1

/-- The allow-list of the first components/auth-provider.tsx provider
(lines 36-37): exact membership, without the root route. -/
def publicRoutes : List String := ["/login", "/register"]

/-- `isPublicRoute` as computed at components/auth-provider.tsx line 37:
`publicRoutes.includes(pathname)`. -/
def isPublicRoute (pathname : String) : Bool :=
  publicRoutes.contains pathname

/-- The guard effect of components/auth-provider.tsx lines 35-42. -/
def protectedRouteGuard (isAuthenticated : Bool) (pathname : String) : NavEffect :=
  if !isAuthenticated && !(isPublicRoute pathname) then .push "/login" else .none

end AuthProviderV1

/-- C3: route guarding uses a fixed allow-list of routes reachable while
Unauthenticated.  When authenticated, neither guard ever redirects; when
unauthenticated, the context guard pushes "/login" exactly for pathnames
outside the allow-list "/login", "/register", "/" (a route covering its
subpaths), and the first provider guard pushes "/login" exactly for
pathnames other than "/login" and "/register". -/
theorem route_guard_allowlist (p : String) :
    AuthContext.protectedRouteGuard true p = NavEffect.none ∧
      AuthProviderV1.protectedRouteGuard true p = NavEffect.none ∧
      AuthContext.protectedRouteGuard false p
        = (if p == "/login" || p.startsWith "/login/"
              || p == "/register" || p.startsWith "/register/"
              || p == "/" || p.startsWith "//"
            then NavEffect.none else NavEffect.push "/login") ∧
      AuthProviderV1.protectedRouteGuard false p
        = (if p == "/login" || p == "/register"
            then NavEffect.none else NavEffect.push "/login") := by
  refine ⟨rfl, rfl, ?_, ?_⟩
  · have h1 : "/login" ++ "/" = "/login/" := rfl
    have h2 : "/register" ++ "/" = "/register/" := rfl
    have h3 : "/" ++ "/" = "//" := rfl
    have hcond : AuthContext.isPublicRoute p
        = (p == "/login" || p.startsWith "/login/"
            || p == "/register" || p.startsWith "/register/"
            || p == "/" || p.startsWith "//") := by
      simp only [AuthContext.isPublicRoute, AuthContext.publicRoutes,
        List.any_cons, List.any_nil, h1, h2, h3, Bool.or_false, Bool.or_assoc]
    show (if !false && !(AuthContext.isPublicRoute p)
        then NavEffect.push "/login" else NavEffect.none) = _
    rw [hcond]
    cases hb : (p == "/login" || p.startsWith "/login/"
        || p == "/register" || p.startsWith "/register/"
        || p == "/" || p.startsWith "//") <;> rfl
  · have hcond : AuthProviderV1.isPublicRoute p
        = (p == "/login" || p == "/register") := by
      simp only [AuthProviderV1.isPublicRoute, AuthProviderV1.publicRoutes,
        List.contains_cons, List.contains_nil, Bool.or_false, Bool.or_assoc,
        List.elem_cons, List.elem_nil]
    show (if !false && !(AuthProviderV1.isPublicRoute p)
        then NavEffect.push "/login" else NavEffect.none) = _
    rw [hcond]
    cases hb : (p == "/login" || p == "/register") <;> rfl

/-! ## Claim C4: stale reconciliation responses -/

/-- One in-flight periodic status check: when it was started (`issuedAt`,
the moment the server truth was sampled), the authentication value the
polling effect had captured in its closure when it was created, and the
sampled payload. -/
structure StatusArrival where
  issuedAt : Nat
  captured : Bool
  authenticated : Bool
deriving DecidableEq

/-- The response handler of the polling effect (components/auth-provider.tsx
lines 131-155, contexts/auth.context.tsx lines 99-122): on arrival a
response is compared against the captured closure value — not against a
timestamp or the current state — and overwrites the state whenever it
differs from that captured value. -/
def applyStatusArrival (state : Bool) (r : StatusArrival) : Bool :=
  if r.authenticated != r.captured then r.authenticated else state

/-- Process a list of responses in arrival order. -/
def runStatusArrivals (initial : Bool) (arrivals : List StatusArrival) : Bool :=
  arrivals.foldl applyStatusArrival initial

/-- The payload of the most recently issued response in a list. -/
def newestAuthenticated (arrivals : List StatusArrival) : Option Bool :=
  (arrivals.foldl
    (fun acc a =>
      match acc with
      | Option.none => some a
      | some b => if b.issuedAt < a.issuedAt then some a else some b)
    Option.none).map (fun a => a.authenticated)

/-- Claim C4 counterexample: two overlapping checks from the same polling
generation (captured value true).  The newer check (issued at 2) sampled
true and arrives first; the stale check (issued at 1) sampled false and
arrives second.  The handler lets the stale response overwrite the newer
one: the flag ends false although the most recently issued response said
true — out-of-order responses are neither discarded nor cancelled. -/
theorem stale_status_overrides_cex :
    runStatusArrivals true
        [{ issuedAt := 2, captured := true, authenticated := true },
          { issuedAt := 1, captured := true, authenticated := false }]
        = false ∧
      newestAuthenticated
          [{ issuedAt := 2, captured := true, authenticated := true },
            { issuedAt := 1, captured := true, authenticated := false }]
        = some true := by
  decide

/-- C4 (amended): the reconciliation handler carries no timestamp check and
no cancellation; each response is compared only against the value captured
when its polling effect was created, so whichever in-flight response
arrives last and differs from its captured value sets the flag — in
particular a stale response arriving after a newer one does override it. -/
theorem status_last_arrival_wins (initial : Bool)
    (arrivals : List StatusArrival) (r : StatusArrival)
    (h : r.authenticated ≠ r.captured) :
    runStatusArrivals initial (arrivals ++ [r]) = r.authenticated := by
  have hb : (r.authenticated != r.captured) = true := by
    simp [bne_iff_ne, h]
  simp [runStatusArrivals, List.foldl_append, applyStatusArrival, hb]

/-- Witness for `status_last_arrival_wins`: a single arrival whose payload
differs from its captured value sets the flag to its payload. -/
theorem status_last_arrival_wins_witness :
    runStatusArrivals true
        ([] ++ [{ issuedAt := 0, captured := true, authenticated := false }])
      = false :=
  status_last_arrival_wins true []
    { issuedAt := 0, captured := true, authenticated := false } (by decide)
